import Mathlib

/-!
Verification of Tautulli's database access layer (`plexpy/database.py`).

This file is a shallow embedding, in Lean 4, of the parts of
`plexpy/database.py` needed to settle the specification's claims:

* the retry loop of `MonitorDatabase.action`;
* the update-or-insert logic of `MonitorDatabase.upsert`;
* the merge / overwrite paths of `import_tautulli_db`, including the
  per-statement commit behaviour of the executor;
* the backup / retention-sweep logic of `make_backup`;
* the identifier guard of `delete_user_history` / `delete_library_history`.

Python statements are translated into pure Lean functions; SQLite's per-row
effects (row counts, autoincrement ids, NULL propagation in scalar
subqueries) are made explicit.  Exceptions become `Except` / explicit result
fields, states are passed explicitly, and nondeterministic inputs (error
outcomes of the engine, concurrent writers, the filesystem) become function
parameters.
-/

set_option autoImplicit false

namespace Tautulli

/-! ## The retrying executor: `MonitorDatabase.action`

```python
def action(self, query, args=None, return_last_id=False):
    ...
    with db_lock:
        sql_result = None
        attempts = 0
        while attempts < 5:
            try:
                with self.connection as c:
                    sql_result = c.execute(query, ...)
                break
            except sqlite3.OperationalError as e:
                if <transient: "unable to open database file" / "database is locked">:
                    attempts += 1
                    time.sleep(1)
                else:
                    raise
            except sqlite3.DatabaseError as e:
                raise
        return sql_result
```

The outcome of each `c.execute` attempt is an input of the model: attempt
`n` either succeeds, fails with an `OperationalError` that the `if` at line
339 classifies as transient (lock-busy / locked / unable-to-open), or fails
fatally (any other `DatabaseError`, or an unclassified `OperationalError`).
-/

/-- Outcome of one `c.execute` attempt inside `MonitorDatabase.action`. -/
inductive Outcome where
  /-- The statement executed; the `with` block commits and the loop breaks. -/
  | success : Outcome
  /-- `sqlite3.OperationalError` classified transient by the message check
  (lock busy / database locked / unable to open database file). -/
  | transient : Outcome
  /-- Any other database error: logged and re-raised immediately. -/
  | fatal : Outcome
  deriving DecidableEq, Repr

/-- How a `MonitorDatabase.action` call ended: `returned r` is the normal
`return sql_result` (with `r = none` when `sql_result` is still `None`),
`raised msg` is a propagated exception. -/
inductive ActionResult where
  | returned (r : Option Unit) : ActionResult
  | raised (msg : String) : ActionResult
  deriving DecidableEq, Repr

/-- What a finished `action` call did: how many `c.execute` attempts ran, how
many `time.sleep(1)` calls were made, and how the call ended. -/
structure ActionTrace where
  attempts : Nat
  sleeps : Nat
  result : ActionResult
  deriving DecidableEq, Repr

/-- The `while attempts < 5` loop of `MonitorDatabase.action`.  `remaining`
is `5 - attempts`; `calls` and `sleeps` count `c.execute` and `time.sleep(1)`
calls made so far.  On `success` the loop breaks; on a transient error it
increments `attempts`, sleeps one second and re-enters; on a fatal error it
re-raises.  When `attempts` reaches 5 the loop exits and the function
returns `sql_result`, which is still `None`. -/
def actionGo (f : Nat → Outcome) : Nat → Nat → Nat → ActionTrace
  | 0, calls, sleeps => { attempts := calls, sleeps := sleeps, result := .returned none }
  | remaining + 1, calls, sleeps =>
    match f calls with
    | .success => { attempts := calls + 1, sleeps := sleeps, result := .returned (some ()) }
    | .transient => actionGo f remaining (calls + 1) (sleeps + 1)
    | .fatal => { attempts := calls + 1, sleeps := sleeps, result := .raised "DatabaseError" }

/-- Model of `MonitorDatabase.action` on a non-`None` query: run the retry loop with
`attempts = 0` and no sleeps taken, where `f n` is the engine's outcome for
the `n`-th execute attempt. -/
def actionRun (f : Nat → Outcome) : ActionTrace :=
  actionGo f 5 0 0

theorem actionGo_const_transient (n calls sleeps : Nat)
    (f : Nat → Outcome) (hf : ∀ k, f k = .transient) :
    actionGo f n calls sleeps =
      { attempts := calls + n, sleeps := sleeps + n, result := .returned none } := by
  induction n generalizing calls sleeps with
  | zero => simp [actionGo]
  | succ m ih =>
    rw [actionGo, hf calls, ih]
    simp only [ActionTrace.mk.injEq]
    refine ⟨by omega, by omega, trivial⟩

/-- C2, counterexample: on a statement whose every attempt fails with a
transient (busy/locked/unable-to-open) condition, `MonitorDatabase.action`
does NOT raise: the `while attempts < 5` loop simply exits and the function
returns `sql_result = None` normally.  No `TransientFailure` (nor any other
exception) is raised — the code contains no raise on this path at all. -/
theorem action_allTransient_returns_none :
    (actionRun fun _ => Outcome.transient) =
      { attempts := 5, sleeps := 5, result := ActionResult.returned none } ∧
    ∀ msg : String,
      (actionRun fun _ => Outcome.transient).result ≠ ActionResult.raised msg := by
  constructor
  · rfl
  · intro msg h
    have hres : (actionRun fun _ => Outcome.transient).result =
        ActionResult.returned none := rfl
    rw [hres] at h
    exact ActionResult.noConfusion h

/-- C2, amended: for every statement that fails with a transient condition on
every attempt, `MonitorDatabase.action` makes exactly 5 execute attempts,
sleeping 1 second after each failed attempt (in particular between every
pair of consecutive attempts), and then returns `None` normally instead of
raising. -/
theorem action_retry_ceiling (f : Nat → Outcome) (hf : ∀ k, f k = .transient) :
    (actionRun f).attempts = 5 ∧ (actionRun f).sleeps = 5 ∧
      (actionRun f).result = ActionResult.returned none := by
  unfold actionRun
  rw [actionGo_const_transient 5 0 0 f hf]
  exact ⟨rfl, rfl, rfl⟩

/-- Witness for `action_retry_ceiling` at the constant-transient outcome
function. -/
theorem action_retry_ceiling_witness :
    (actionRun fun _ => Outcome.transient).attempts = 5 ∧
    (actionRun fun _ => Outcome.transient).sleeps = 5 ∧
    (actionRun fun _ => Outcome.transient).result = ActionResult.returned none :=
  action_retry_ceiling (fun _ => Outcome.transient) (fun _ => rfl)

/-! ## `MonitorDatabase.upsert`

```python
def upsert(self, table_name, value_dict, key_dict):
    trans_type = 'update'
    changes_before = self.connection.total_changes
    ...
    self.action(update_query, list(value_dict.values()) + list(key_dict.values()))
    if self.connection.total_changes == changes_before:
        trans_type = 'insert'
        insert_query = (...)
        try:
            self.action(insert_query, ...)
        except sqlite3.IntegrityError:
            logger.info("Tautulli Database :: Queries failed: %s and %s", ...)
    return trans_type
```

The table is modelled as a list of rows with one key column (standing for
`key_dict`) and one value column (standing for `value_dict`), with a unique
constraint on the key column so that the fallback `INSERT` can raise
`sqlite3.IntegrityError`.  `total_changes` is per connection: SQLite counts
every row matched by an `UPDATE` (even when set to its current value), and a
concurrent writer on another connection changes the shared rows but not this
connection's counter.  The concurrent writer of the known upsert race is an
explicit parameter: an optional row another connection inserts between the
`UPDATE` and the `INSERT`. -/

/-- A table row: the `key_dict` columns and the `value_dict` columns,
collapsed to one `Nat` each.  The key column carries a unique constraint. -/
structure DbRow where
  key : Nat
  val : Nat
  deriving DecidableEq, Repr

/-- The sqlite3 connection as `upsert` sees it: the shared table contents
plus this connection's `total_changes` counter. -/
structure Conn where
  rows : List DbRow
  totalChanges : Nat
  deriving DecidableEq, Repr

/-- The string `upsert` returns: `'update'` or `'insert'`. -/
inductive TransType where
  | update : TransType
  | insert : TransType
  deriving DecidableEq, Repr

/-- The statement `UPDATE table SET val = ? WHERE key = ?`: rewrites every matching row and
bumps `total_changes` by the number of matched rows (SQLite counts a row as
changed even when the new value equals the old one). -/
def runUpdate (c : Conn) (key val : Nat) : Conn :=
  { rows := c.rows.map fun r => if r.key == key then { r with val := val } else r,
    totalChanges := c.totalChanges + c.rows.countP fun r => r.key == key }

/-- The statement `INSERT INTO table (val, key) VALUES (?, ?)`: `none` is a raised
`sqlite3.IntegrityError` (unique constraint on the key column), otherwise the
row is appended and `total_changes` bumped by one. -/
def runInsert (c : Conn) (key val : Nat) : Option Conn :=
  if c.rows.any (fun r => r.key == key) then none
  else some { rows := c.rows ++ [⟨key, val⟩], totalChanges := c.totalChanges + 1 }

/-- A concurrent writer on another connection inserting a row between the
two statements: it changes the shared rows but not this connection's
`total_changes`. -/
def applyRace (c : Conn) : Option DbRow → Conn
  | none => c
  | some r => { c with rows := c.rows ++ [r] }

/-- Everything observable about one `upsert` call: the connection state
afterwards, the returned `trans_type`, whether the fallback `INSERT` was
executed, and whether that insert raised an `IntegrityError` (which the
`except sqlite3.IntegrityError` clause swallows — `upsert` is a total
function, so no error ever propagates to the caller). -/
structure UpsertResult where
  conn : Conn
  transType : TransType
  insertAttempted : Bool
  integrityError : Bool
  deriving DecidableEq, Repr

/-- Model of `MonitorDatabase.upsert`, with `race` the optional row a concurrent
connection inserts between the `UPDATE` and the fallback `INSERT`.
`changes_before` is read at entry, so the guard compares the counter after
the `UPDATE` against `c.totalChanges`; `trans_type` is set to `'insert'`
before the fallback insert runs, so it is returned whether or not that
insert raises the (swallowed) `IntegrityError`. -/
def upsert (c : Conn) (key val : Nat) (race : Option DbRow) : UpsertResult :=
  if (applyRace (runUpdate c key val) race).totalChanges = c.totalChanges then
    match runInsert (applyRace (runUpdate c key val) race) key val with
    | some c2 => { conn := c2, transType := .insert, insertAttempted := true,
                   integrityError := false }
    | none => { conn := applyRace (runUpdate c key val) race, transType := .insert,
                insertAttempted := true, integrityError := true }
  else
    { conn := applyRace (runUpdate c key val) race, transType := .update,
      insertAttempted := false, integrityError := false }

/-- Repeated upsert of the same key and value, starting from `c`. -/
def upsertN (c : Conn) (key val : Nat) : Nat → Conn
  | 0 => c
  | n + 1 => (upsert (upsertN c key val n) key val none).conn

theorem update_preserves_key (r : DbRow) (key val : Nat) :
    (if r.key == key then { r with val := val } else r).key = r.key := by
  split <;> rfl

theorem countP_map_update (l : List DbRow) (key val k : Nat) :
    (l.map fun r => if r.key == key then { r with val := val } else r).countP
        (fun r => r.key == k) =
      l.countP fun r => r.key == k := by
  induction l with
  | nil => rfl
  | cons r t ih =>
    simp only [List.map_cons, List.countP_cons, ih, update_preserves_key]

theorem map_update_of_countP_zero (l : List DbRow) (key val : Nat)
    (h : l.countP (fun r => r.key == key) = 0) :
    (l.map fun r => if r.key == key then { r with val := val } else r) = l := by
  induction l with
  | nil => rfl
  | cons r t ih =>
    rw [List.countP_cons] at h
    by_cases hr : (r.key == key) = true
    · simp [hr] at h
    · simp only [Bool.not_eq_true] at hr
      simp only [List.map_cons, hr, if_neg, Bool.false_eq_true, not_false_iff]
      rw [ih (by omega)]

theorem applyRace_totalChanges (c : Conn) (race : Option DbRow) :
    (applyRace c race).totalChanges = c.totalChanges := by
  cases race <;> rfl

theorem any_key_eq_countP_pos (l : List DbRow) (k : Nat) :
    (l.any fun r => r.key == k) = true ↔ 0 < l.countP fun r => r.key == k := by
  induction l with
  | nil => simp
  | cons r t ih =>
    by_cases h : (r.key == k) = true <;>
      simp [List.countP_cons, h, ih]

theorem upsert_cond_of_countP_zero (c : Conn) (key val : Nat) (race : Option DbRow)
    (h : c.rows.countP (fun r => r.key == key) = 0) :
    (applyRace (runUpdate c key val) race).totalChanges = c.totalChanges := by
  rw [applyRace_totalChanges]
  simp [runUpdate, h]

theorem upsert_cond_of_countP_ne_zero (c : Conn) (key val : Nat) (race : Option DbRow)
    (h : c.rows.countP (fun r => r.key == key) ≠ 0) :
    (applyRace (runUpdate c key val) race).totalChanges ≠ c.totalChanges := by
  rw [applyRace_totalChanges]
  simp only [runUpdate]
  omega

/-- Successful-insert branch: when no row matches the key and there is no
concurrent writer, the `UPDATE` changes nothing, the fallback `INSERT`
succeeds and appends the row. -/
theorem upsert_absent (c : Conn) (key val : Nat)
    (h : c.rows.countP (fun r => r.key == key) = 0) :
    upsert c key val none =
      { conn := { rows := c.rows ++ [⟨key, val⟩],
                  totalChanges := (runUpdate c key val).totalChanges + 1 },
        transType := .insert, insertAttempted := true, integrityError := false } := by
  unfold upsert
  rw [if_pos (upsert_cond_of_countP_zero c key val none h)]
  have hrows : (applyRace (runUpdate c key val) none).rows = c.rows := by
    simpa [applyRace, runUpdate] using map_update_of_countP_zero c.rows key val h
  have hany : ¬ (((applyRace (runUpdate c key val) none).rows.any
      fun r => r.key == key) = true) := by
    rw [hrows, any_key_eq_countP_pos]
    omega
  have hins : runInsert (applyRace (runUpdate c key val) none) key val =
      some { rows := c.rows ++ [⟨key, val⟩],
             totalChanges := (runUpdate c key val).totalChanges + 1 } := by
    unfold runInsert
    rw [if_neg hany, hrows]
    rfl
  rw [hins]

/-- Update branch: when some row matches the key, `total_changes` moves, the
fallback `INSERT` never runs and `'update'` is returned. -/
theorem upsert_present (c : Conn) (key val : Nat) (race : Option DbRow)
    (h : c.rows.countP (fun r => r.key == key) ≠ 0) :
    upsert c key val race =
      { conn := applyRace (runUpdate c key val) race, transType := .update,
        insertAttempted := false, integrityError := false } := by
  unfold upsert
  rw [if_neg (upsert_cond_of_countP_ne_zero c key val race h)]

/-- C4: `upsert` runs the `UPDATE` first; the connection's `total_changes`
counter is unchanged by that `UPDATE` exactly when no row matched the key
(SQLite bumps it for every matched row), and in that case — and only that
case — the fallback `INSERT` of `value_dict ∪ key_dict` is executed and
`'insert'` is returned, otherwise `'update'` is returned.  An
`IntegrityError` raised by the fallback insert is swallowed: `upsert` is a
total function into `UpsertResult` (the error is recorded in the
`integrityError` field, never propagated), and it returns `'insert'` on that
path too. -/
theorem upsert_branch_spec (c : Conn) (key val : Nat) (race : Option DbRow) :
    ((runUpdate c key val).totalChanges = c.totalChanges ↔
      c.rows.countP (fun r => r.key == key) = 0) ∧
    ((upsert c key val race).insertAttempted = true ↔
      c.rows.countP (fun r => r.key == key) = 0) ∧
    ((upsert c key val race).transType = TransType.insert ↔
      c.rows.countP (fun r => r.key == key) = 0) ∧
    ((upsert c key val race).transType = TransType.update ↔
      c.rows.countP (fun r => r.key == key) ≠ 0) := by
  have hfirst : (runUpdate c key val).totalChanges = c.totalChanges ↔
      c.rows.countP (fun r => r.key == key) = 0 := by
    simp only [runUpdate]
    omega
  refine ⟨hfirst, ?_, ?_, ?_⟩ <;>
  · by_cases h : c.rows.countP (fun r => r.key == key) = 0
    · unfold upsert
      rw [if_pos (upsert_cond_of_countP_zero c key val race h)]
      cases runInsert (applyRace (runUpdate c key val) race) key val <;> simp [h]
    · rw [upsert_present c key val race h]
      simp [h]

/-- C5, counterexample: the claim quantifies over every table, but on a
table that already holds a row for the key the very first `upsert` call
takes the update branch and returns `'update'`, not `'insert'`; and on a
table already holding two rows for the key, `upsert` leaves two rows for
that key, not exactly one. -/
theorem upsert_idem_counterexample :
    (upsert { rows := [⟨1, 5⟩], totalChanges := 0 } 1 5 none).transType =
        TransType.update ∧
    (upsert { rows := [⟨1, 5⟩], totalChanges := 0 } 1 5 none).transType ≠
        TransType.insert ∧
    ((upsert { rows := [⟨1, 5⟩, ⟨1, 6⟩], totalChanges := 0 } 1 7 none).conn.rows.countP
        fun r => r.key == 1) = 2 := by
  decide

theorem upsertN_countP_one (c : Conn) (key val : Nat)
    (h : c.rows.countP (fun r => r.key == key) = 0) :
    ∀ n : Nat, ((upsertN c key val (n + 1)).rows.countP fun r => r.key == key) = 1 := by
  intro n
  induction n with
  | zero =>
    show ((upsert (upsertN c key val 0) key val none).conn.rows.countP
        fun r => r.key == key) = 1
    rw [show upsertN c key val 0 = c from rfl, upsert_absent c key val h]
    simp [List.countP_append, List.countP_cons, h]
  | succ m ih =>
    show ((upsert (upsertN c key val (m + 1)) key val none).conn.rows.countP
        fun r => r.key == key) = 1
    rw [upsert_present _ key val none (by rw [ih]; omega)]
    simp only [applyRace, runUpdate, countP_map_update]
    exact ih

/-- C5, amended: starting from a table holding no row for the key, the first
`upsert` call reports `'insert'`; after any positive number of repetitions
the table holds exactly one row for that key, and the next call reports
`'update'`. -/
theorem upsert_idempotent (c : Conn) (key val n : Nat)
    (h : c.rows.countP (fun r => r.key == key) = 0) (hn : 1 ≤ n) :
    (upsert c key val none).transType = TransType.insert ∧
    ((upsertN c key val n).rows.countP fun r => r.key == key) = 1 ∧
    (upsert (upsertN c key val n) key val none).transType = TransType.update := by
  obtain ⟨m, rfl⟩ : ∃ m, n = m + 1 := ⟨n - 1, by omega⟩
  refine ⟨?_, upsertN_countP_one c key val h m, ?_⟩
  · rw [upsert_absent c key val h]
  · rw [upsert_present _ key val none (by rw [upsertN_countP_one c key val h m]; omega)]

/-- Witness for `upsert_idempotent`: empty table, key 1, value 2, two
repetitions. -/
theorem upsert_idempotent_witness :
    (({ rows := [], totalChanges := 0 } : Conn).rows.countP
        (fun r => r.key == 1) = 0 ∧ 1 ≤ 2) ∧
    ((upsert { rows := [], totalChanges := 0 } 1 2 none).transType =
        TransType.insert ∧
      ((upsertN { rows := [], totalChanges := 0 } 1 2 2).rows.countP
        fun r => r.key == 1) = 1 ∧
      (upsert (upsertN { rows := [], totalChanges := 0 } 1 2 2) 1 2 none).transType =
        TransType.update) :=
  ⟨⟨by decide, by decide⟩,
    upsert_idempotent { rows := [], totalChanges := 0 } 1 2 2 (by decide) (by decide)⟩

/-- C9: the swallowed upsert race.  When no row matches the key, the
`UPDATE` changes nothing; if a concurrent connection then inserts a row with
that key before the fallback `INSERT`, the insert raises an
`IntegrityError`, which is swallowed — `upsert` still returns `'insert'`
although neither of its own statements wrote or modified anything: the final
rows are the original rows plus only the concurrent writer's row, and the
caller's `total_changes` counter is exactly where it started. -/
theorem upsert_race_lost_update (c : Conn) (key val : Nat) (raceRow : DbRow)
    (h : c.rows.countP (fun r => r.key == key) = 0) (hr : raceRow.key = key) :
    (upsert c key val (some raceRow)).transType = TransType.insert ∧
    (upsert c key val (some raceRow)).integrityError = true ∧
    (upsert c key val (some raceRow)).conn.rows = c.rows ++ [raceRow] ∧
    (upsert c key val (some raceRow)).conn.totalChanges = c.totalChanges := by
  have hrows : (applyRace (runUpdate c key val) (some raceRow)).rows =
      c.rows ++ [raceRow] := by
    simp only [applyRace, runUpdate]
    rw [map_update_of_countP_zero c.rows key val h]
  have hany : (((applyRace (runUpdate c key val) (some raceRow)).rows.any
      fun r => r.key == key) = true) := by
    rw [hrows]
    simp [hr]
  have hins : runInsert (applyRace (runUpdate c key val) (some raceRow)) key val =
      none := by
    unfold runInsert
    rw [if_pos hany]
  unfold upsert
  rw [if_pos (upsert_cond_of_countP_zero c key val (some raceRow) h), hins]
  refine ⟨rfl, rfl, hrows, ?_⟩
  rw [applyRace_totalChanges]
  simp [runUpdate, h]

/-- Witness for `upsert_race_lost_update`: empty table, key 1, value 2, a
concurrent writer inserting `⟨1, 9⟩`. -/
theorem upsert_race_lost_update_witness :
    (({ rows := [], totalChanges := 0 } : Conn).rows.countP
        (fun r => r.key == 1) = 0 ∧ (⟨1, 9⟩ : DbRow).key = 1) ∧
    ((upsert { rows := [], totalChanges := 0 } 1 2 (some ⟨1, 9⟩)).transType =
        TransType.insert ∧
      (upsert { rows := [], totalChanges := 0 } 1 2 (some ⟨1, 9⟩)).integrityError =
        true ∧
      (upsert { rows := [], totalChanges := 0 } 1 2 (some ⟨1, 9⟩)).conn.rows =
        ([] : List DbRow) ++ [⟨1, 9⟩] ∧
      (upsert { rows := [], totalChanges := 0 } 1 2 (some ⟨1, 9⟩)).conn.totalChanges =
        0) :=
  ⟨⟨by decide, rfl⟩,
    upsert_race_lost_update { rows := [], totalChanges := 0 } 1 2 ⟨1, 9⟩
      (by decide) rfl⟩

/-! ## `import_tautulli_db`, merge method (session_history)

The merge path of `import_tautulli_db`, restricted to the `session_history`
table (the claims' scenario):

```python
session_history_seq = db.select_single('SELECT seq FROM sqlite_sequence WHERE name = "session_history"')
db.action('CREATE TABLE IF NOT EXISTS temp (id INTEGER PRIMARY KEY, old_id, new_id)')
db.action('INSERT INTO temp (old_id) SELECT id FROM import_db.session_history')
db.action('UPDATE temp SET new_id = id + ?', [session_history_seq['seq']])
...
for table in tables:
    table_name = table['name']
    ...
    table_columns[table_name] = insert_columns
    if table == 'session_history':                  # line 114
        session_history_columns = import_columns
    db.action('INSERT OR IGNORE INTO {table} ({columns}) SELECT {columns} FROM import_db.{table}')
...
db.action('UPDATE session_history SET reference_id = (SELECT new_id FROM temp WHERE old_id = reference_id)'
          'WHERE id > ?', [session_history_seq['seq']])
if session_history_columns:
    columns = ', '.join([c for c in session_history_columns if c != 'reference_id'])
    db.action('DELETE FROM temp WHERE new_id IN (SELECT MIN(id) FROM session_history GROUP BY {columns})')
for table, columns in table_columns.items():
    if table in session_history_tables:
        db.action('DELETE FROM {table} WHERE id IN (SELECT new_id FROM temp)')
    ...
```

A history row is its autoincrement `id`, its NULLable `reference_id`
cross-reference, and `content`, which abstracts all remaining non-pk
columns.  `temp` rows carry temp's own `INTEGER PRIMARY KEY` (1-based
insertion order), the imported row's `old_id`, and `new_id = id + seq` —
note `id` is temp's key, not `old_id`.  Inserting the source rows with the
pk excluded assigns them fresh autoincrement ids `seq+1, seq+2, ...` in the
same `SELECT` order.

At line 114 the source compares `table` — the row mapping
`{'name': 'session_history'}` returned by the `sqlite_master` query — with
the string `'session_history'`; the comparison is always false, so
`session_history_columns` stays `[]` and the `DELETE FROM temp` pruning is
skipped.  The `captured` flag of `mergeSessionHistory` makes that comparison
explicit: `false` is the code as written, `true` the evident intent
(`table_name == 'session_history'`, as used everywhere else in the loop). -/

/-- A `session_history` row: autoincrement `id`, NULLable `reference_id`,
and `content` standing for all other non-pk columns. -/
structure HRow where
  id : Nat
  reference_id : Option Nat
  content : Nat
  deriving DecidableEq, Repr

/-- A row of the temporary reindex table
`temp (id INTEGER PRIMARY KEY, old_id, new_id)`. -/
structure TempRow where
  id : Nat
  old_id : Nat
  new_id : Nat
  deriving DecidableEq, Repr

/-- The statement `INSERT INTO temp (old_id) SELECT id FROM
import_db.session_history` followed by `UPDATE temp SET new_id = id + seq`: temp's own pk counts the
source rows 1-based in `SELECT` order, and `new_id` offsets that pk (not
`old_id`) by the destination's recorded high-water mark. -/
def buildTemp (src : List HRow) (seq : Nat) : List TempRow :=
  ((List.range src.length).zip src).map fun p => ⟨p.1 + 1, p.2.id, p.1 + 1 + seq⟩

/-- The statement `INSERT OR IGNORE INTO session_history ({non-pk columns})
SELECT ... FROM import_db.session_history`: the destination assigns fresh
autoincrement ids `seq+1, seq+2, ...` in `SELECT` order; `reference_id` and
`content` are copied as-is. -/
def insertRows (src : List HRow) (seq : Nat) : List HRow :=
  ((List.range src.length).zip src).map fun p => ⟨seq + p.1 + 1, p.2.reference_id, p.2.content⟩

/-- The scalar subquery `(SELECT new_id FROM temp WHERE old_id = reference_id)`:
`none` (SQL NULL) when no temp row matches. -/
def tempLookup (temp : List TempRow) (ref : Nat) : Option Nat :=
  (temp.find? fun t => t.old_id == ref).map TempRow.new_id

/-- The statement `UPDATE session_history SET reference_id = (SELECT new_id
FROM temp WHERE old_id = reference_id) WHERE id > seq`: every just-imported row's reference
is replaced by the subquery result; a NULL reference, or a reference with no
matching `old_id`, becomes NULL. -/
def reindexRefs (rows : List HRow) (temp : List TempRow) (seq : Nat) : List HRow :=
  rows.map fun r =>
    if seq < r.id then { r with reference_id := r.reference_id.bind (tempLookup temp) }
    else r

/-- The subquery `SELECT MIN(id) FROM session_history GROUP BY {columns}`,
with `columns` =
all non-pk columns except `reference_id`: the least id of each group of rows
sharing the same `content`. -/
def minIdsByContent (rows : List HRow) : List Nat :=
  (rows.filter fun r =>
    rows.all fun s => !(s.content == r.content) || decide (r.id ≤ s.id)).map HRow.id

/-- The statement `DELETE FROM temp WHERE new_id IN (SELECT MIN(id) FROM
session_history GROUP BY {columns})`: the ids to KEEP are removed from temp. -/
def pruneTemp (temp : List TempRow) (rows : List HRow) : List TempRow :=
  temp.filter fun t => !((minIdsByContent rows).contains t.new_id)

/-- The statement `DELETE FROM session_history WHERE id IN (SELECT new_id
FROM temp)`. -/
def deleteByTemp (rows : List HRow) (temp : List TempRow) : List HRow :=
  rows.filter fun r => !(temp.any fun t => t.new_id == r.id)

/-- The merge path of `import_tautulli_db` on the `session_history` table.
`captured` embeds line 114's `table == 'session_history'` comparison: the
pruning step `DELETE FROM temp WHERE new_id IN (...)` runs only when
`session_history_columns` was captured. -/
def mergeSessionHistory (captured : Bool) (dest : List HRow) (seq : Nat)
    (src : List HRow) : List HRow :=
  let temp := buildTemp src seq
  let merged := reindexRefs (dest ++ insertRows src seq) temp seq
  let temp2 := if captured then pruneTemp temp merged else temp
  deleteByTemp merged temp2

/-- Model of `import_tautulli_db` with method `'merge'` as written: at line 114
`table` is the sqlite row mapping `{'name': ...}`, never equal to the string
`'session_history'`, so `session_history_columns` stays empty and the temp
table is never pruned. -/
def mergeImportCode (dest : List HRow) (seq : Nat) (src : List HRow) : List HRow :=
  mergeSessionHistory false dest seq src

/-- The evidently intended comparison `table_name == 'session_history'`
(`table_name` is used in every other statement of the same loop): the
captured column list makes the pruning step run. -/
def mergeImportIntended (dest : List HRow) (seq : Nat) (src : List HRow) : List HRow :=
  mergeSessionHistory true dest seq src

/-- The claim's destination: history rows 1–3 (each its own group head),
`sqlite_sequence.seq = 3`. -/
def destScenario : List HRow := [⟨1, some 1, 10⟩, ⟨2, some 2, 11⟩, ⟨3, some 3, 12⟩]

/-- The claim's source: history rows 1–2, row 2 referencing row 1. -/
def srcScenario : List HRow := [⟨1, some 1, 20⟩, ⟨2, some 1, 21⟩]

/-- C1: on the claim's scenario the code deletes every just-imported history
row instead of keeping it.  Because line 114 compares the sqlite row mapping
`table` (not `table_name`) with `'session_history'`, `session_history_columns`
stays empty, the `DELETE FROM temp` pruning never runs, and the final
`DELETE FROM session_history WHERE id IN (SELECT new_id FROM temp)` removes
ids 4 and 5 — the destination ends with its original 3 rows, not the claimed
5.  Under the evidently intended comparison the claim's property does hold:
5 rows, and the new row for source id 2 references id 4. -/
theorem merge_import_scenario_bug :
    mergeImportCode destScenario 3 srcScenario = destScenario ∧
    (mergeImportCode destScenario 3 srcScenario).length = 3 ∧
    mergeImportIntended destScenario 3 srcScenario =
      [⟨1, some 1, 10⟩, ⟨2, some 2, 11⟩, ⟨3, some 3, 12⟩,
       ⟨4, some 4, 20⟩, ⟨5, some 4, 21⟩] ∧
    ((mergeImportIntended destScenario 3 srcScenario).find?
        fun r => r.id == 5).map HRow.reference_id = some (some 4) := by
  decide

/-! ## `import_tautulli_db`, overwrite method

```python
for table in tables:
    table_name = table['name']
    if table_name == 'sessions':
        continue
    if method == 'overwrite':
        db.action('DELETE FROM {table}')
        db.action('DELETE FROM sqlite_sequence WHERE name = ?', [table_name])
    columns = db.select('PRAGMA import_db.table_info({table})')
    import_columns = [c['name'] for c in columns if not c['pk']]
    db.action('INSERT OR IGNORE INTO {table} ({columns}) SELECT {columns} FROM import_db.{table}')
```

A generic table row is its autoincrement `id` plus `content`, abstracting
all non-pk columns.  Deleting the table's `sqlite_sequence` entry resets the
autoincrement counter, so the copy into the now-empty table assigns fresh
ids `1, 2, ...` in `SELECT` order. -/

/-- A generic table row: autoincrement `id` plus `content` standing for all
non-pk columns. -/
structure TRow where
  id : Nat
  content : Nat
  deriving DecidableEq, Repr

/-- Copy rows assigning fresh autoincrement ids `n, n+1, ...` in order. -/
def renumberFrom (n : Nat) : List TRow → List TRow
  | [] => []
  | r :: rs => ⟨n, r.content⟩ :: renumberFrom (n + 1) rs

/-- The overwrite path for one table: `DELETE FROM {table}` empties it,
`DELETE FROM sqlite_sequence WHERE name = ?` resets the autoincrement
counter to 0, and the `INSERT OR IGNORE ... SELECT` copies the source rows
with fresh ids starting at 1. -/
def overwriteImportTable (dest src : List TRow) : List TRow :=
  let cleared : List TRow := []
  let seqReset : Nat := 0
  cleared ++ renumberFrom (seqReset + 1) src

/-- The overwrite table loop: every source table is truncated and copied,
except `sessions`, which `continue` skips, leaving the destination's
`sessions` table untouched. -/
def overwriteImport (tables : List (String × List TRow × List TRow)) :
    List (String × List TRow) :=
  tables.map fun t =>
    if t.1 == "sessions" then (t.1, t.2.1) else (t.1, overwriteImportTable t.2.1 t.2.2)

theorem renumberFrom_map_id (l : List TRow) (n : Nat) :
    (renumberFrom n l).map TRow.id = List.range' n l.length := by
  induction l generalizing n with
  | nil => rfl
  | cons r t ih => simp [renumberFrom, List.range'_succ, ih]

theorem renumberFrom_map_content (l : List TRow) (n : Nat) :
    (renumberFrom n l).map TRow.content = l.map TRow.content := by
  induction l generalizing n with
  | nil => rfl
  | cons r t ih => simp [renumberFrom, ih]

/-- C6: overwrite import truncates before copying.  For any destination and
source contents of a table, the overwrite path leaves exactly the source's
rows — same count (10 destination rows and 3 source rows yield exactly 3),
same contents in order — with fresh autoincrement ids `1, 2, ..., n`; and
the excluded live-session table `sessions` is skipped untouched. -/
theorem overwrite_import_spec (dest src : List TRow) (sessDest sessSrc : List TRow) :
    (overwriteImportTable dest src).length = src.length ∧
    (overwriteImportTable dest src).map TRow.id = List.range' 1 src.length ∧
    (overwriteImportTable dest src).map TRow.content = src.map TRow.content ∧
    overwriteImport [("sessions", sessDest, sessSrc)] = [("sessions", sessDest)] := by
  refine ⟨?_, ?_, ?_, ?_⟩
  · have h := congrArg List.length (renumberFrom_map_id src 1)
    simpa [overwriteImportTable] using h
  · simpa [overwriteImportTable] using renumberFrom_map_id src 1
  · simpa [overwriteImportTable] using renumberFrom_map_content src 1
  · simp [overwriteImport]

/-! ## `import_tautulli_db` is not one transaction

`import_tautulli_db` opens with `db.connection.execute('BEGIN IMMEDIATE')`,
but every subsequent statement goes through `MonitorDatabase.action`, whose
`with self.connection as c:` block COMMITS the connection's open transaction
when the statement succeeds (that is sqlite3's connection context-manager
semantics; the retry loop's own comment says "Our transaction was
successful").  So each statement of the import commits individually.  A
statement that fails fatally is rolled back by the `with` block — back to
the previous statement's commit only — and the exception propagates out of
`import_tautulli_db`, which has no handler: everything already committed
stays.

The model: the destination's state for one table, the import's statement
list for the overwrite method, and an executor that applies (commits) every
statement before the failing one. -/

/-- The destination database restricted to one table: its rows and its
`sqlite_sequence` autoincrement counter. -/
structure DB3 where
  rows : List TRow
  seq : Nat
  deriving DecidableEq, Repr

/-- The statements `import_tautulli_db` issues through
`MonitorDatabase.action` for one table under method `'overwrite'`. -/
inductive ImportStmt where
  /-- `DELETE FROM {table}` -/
  | deleteAll : ImportStmt
  /-- `DELETE FROM sqlite_sequence WHERE name = ?` -/
  | resetSeq : ImportStmt
  /-- `INSERT OR IGNORE INTO {table} ({columns}) SELECT {columns} FROM import_db.{table}` -/
  | insertFrom : ImportStmt
  /-- `VACUUM` -/
  | vacuum : ImportStmt
  deriving DecidableEq, Repr

/-- Effect of one committed statement on the destination. -/
def applyStmt (src : List TRow) (db : DB3) : ImportStmt → DB3
  | .deleteAll => { db with rows := [] }
  | .resetSeq => { db with seq := 0 }
  | .insertFrom => { rows := db.rows ++ renumberFrom (db.seq + 1) src,
                     seq := db.seq + src.length }
  | .vacuum => db

/-- The statement sequence of an overwrite import of one table. -/
def overwriteStmts : List ImportStmt :=
  [.deleteAll, .resetSeq, .insertFrom, .vacuum]

/-- The executor's per-statement commit: each successful
`MonitorDatabase.action` call commits on leaving its `with self.connection`
block, so when statement number `failAt` (0-based) fails fatally, the
destination holds exactly the effects of the first `failAt` statements. -/
def runCommitted (src : List TRow) (db : DB3) (stmts : List ImportStmt)
    (failAt : Nat) : DB3 :=
  (stmts.take failAt).foldl (applyStmt src) db

/-- C3, counterexample: an overwrite import of a one-row table from a
one-row source in which the third statement (the `INSERT ... SELECT`) fails
fatally leaves the destination changed — the table was already cleared and
its autoincrement counter reset by the two committed `DELETE` statements. -/
theorem import_failure_counterexample :
    runCommitted [⟨1, 9⟩] { rows := [⟨1, 7⟩], seq := 1 } overwriteStmts 2 ≠
      { rows := [⟨1, 7⟩], seq := 1 } ∧
    runCommitted [⟨1, 9⟩] { rows := [⟨1, 7⟩], seq := 1 } overwriteStmts 2 =
      { rows := [], seq := 0 } := by
  decide

/-- C3, amended: the import is not one transaction — each statement commits
individually when its `with self.connection` block exits, so a fatal failure
at the insert statement of an overwrite import leaves every destination
table already processed in its truncated state: the table is empty with its
counter reset, which differs from the initial state whenever the table had
rows. -/
theorem import_not_atomic (db : DB3) (src : List TRow) (h : db.rows ≠ []) :
    runCommitted src db overwriteStmts 2 = { rows := [], seq := 0 } ∧
    runCommitted src db overwriteStmts 2 ≠ db := by
  have hrun : runCommitted src db overwriteStmts 2 = { rows := [], seq := 0 } := rfl
  refine ⟨hrun, ?_⟩
  rw [hrun]
  intro heq
  exact h (by rw [← heq])

/-- Witness for `import_not_atomic`: a one-row destination table. -/
theorem import_not_atomic_witness :
    ({ rows := [⟨1, 7⟩], seq := 1 } : DB3).rows ≠ [] ∧
    (runCommitted [⟨1, 9⟩] { rows := [⟨1, 7⟩], seq := 1 } overwriteStmts 2 =
        { rows := [], seq := 0 } ∧
      runCommitted [⟨1, 9⟩] { rows := [⟨1, 7⟩], seq := 1 } overwriteStmts 2 ≠
        { rows := [⟨1, 7⟩], seq := 1 }) :=
  ⟨by decide, import_not_atomic { rows := [⟨1, 7⟩], seq := 1 } [⟨1, 9⟩] (by decide)⟩

/-! ## `make_backup`

```python
def make_backup(cleanup=False, scheduler=False):
    integrity = (integrity_check()['integrity_check'] == 'ok')
    corrupt = ''
    if not integrity:
        corrupt = '.corrupt'
        plexpy.NOTIFY_QUEUE.put({'notify_action': 'on_plexpydbcorrupt'})
    if scheduler:
        backup_file = 'tautulli.backup-{}{}.sched.db'.format(arrow.now().format('YYYYMMDDHHmmss'), corrupt)
    else:
        backup_file = 'tautulli.backup-{}{}.db'.format(arrow.now().format('YYYYMMDDHHmmss'), corrupt)
    ...
    if cleanup and integrity:
        now = time.time()
        for root, dirs, files in os.walk(backup_folder):
            db_files = [os.path.join(root, f) for f in files if f.endswith('.sched.db')]
            for file_ in db_files:
                if os.stat(file_).st_mtime < now - plexpy.CONFIG.BACKUP_DAYS * 86400:
                    try:
                        os.remove(file_)
                    except OSError as e:
                        logger.error(...)
    if backup_file in os.listdir(backup_folder):
        return True
    else:
        return False
```

External state becomes parameters: `integrityRow` is the value
`integrity_check()['integrity_check']` (the first row of
`PRAGMA integrity_check` — the literal `'ok'` on a healthy database), `ts`
the formatted timestamp, `files`/`now`/`backupDays` the walked directory,
clock and retention window, `delOk` whether `os.remove` succeeds on a given
file (an `OSError` is caught, logged, and the loop continues), and
`listing` the final `os.listdir` of the backup folder. -/

/-- A file in the backup directory: name and modification time. -/
structure BackupFile where
  name : String
  mtime : Int
  deriving DecidableEq, Repr

/-- The backup file name: `corrupt` is the infix variable of the source
(either `''` or `'.corrupt'`). -/
def backupFileName (ts corrupt : String) (scheduler : Bool) : String :=
  if scheduler then "tautulli.backup-" ++ ts ++ corrupt ++ ".sched.db"
  else "tautulli.backup-" ++ ts ++ corrupt ++ ".db"

/-- The retention sweep: scheduled (`.sched.db`) files whose mtime is
strictly below the cutoff are attempted; a failed `os.remove` (an
`OSError`) is logged and the sweep continues with the remaining files.
Returns (names attempted, names actually deleted). -/
def sweepLoop (cutoff : Int) (delOk : String → Bool) :
    List BackupFile → List String × List String
  | [] => ([], [])
  | f :: fs =>
    let rest := sweepLoop cutoff delOk fs
    if f.name.endsWith ".sched.db" then
      if f.mtime < cutoff then
        (f.name :: rest.1, if delOk f.name then f.name :: rest.2 else rest.2)
      else rest
    else rest

/-- Everything observable about one `make_backup` call. -/
structure BackupResult where
  backup_file : String
  notifications : Nat
  sweepAttempted : List String
  sweepDeleted : List String
  returnValue : Bool
  deriving DecidableEq, Repr

/-- Model of `make_backup`. -/
def make_backup (integrityRow : String) (cleanup scheduler : Bool) (ts : String)
    (files : List BackupFile) (now : Int) (backupDays : Nat)
    (delOk : String → Bool) (listing : List String) : BackupResult :=
  let integrity := integrityRow == "ok"
  let corrupt := if integrity then "" else ".corrupt"
  let swept := if cleanup && integrity then
      sweepLoop (now - (backupDays : Int) * 86400) delOk files
    else ([], [])
  { backup_file := backupFileName ts corrupt scheduler,
    notifications := if integrity then 0 else 1,
    sweepAttempted := swept.1,
    sweepDeleted := swept.2,
    returnValue := listing.contains (backupFileName ts corrupt scheduler) }

theorem sweepLoop_eq (cutoff : Int) (delOk : String → Bool) (files : List BackupFile) :
    sweepLoop cutoff delOk files =
      ((files.filter fun f =>
          f.name.endsWith ".sched.db" && decide (f.mtime < cutoff)).map BackupFile.name,
       ((files.filter fun f =>
          f.name.endsWith ".sched.db" && decide (f.mtime < cutoff)).map BackupFile.name).filter
         delOk) := by
  induction files with
  | nil => rfl
  | cons f fs ih =>
    by_cases h1 : f.name.endsWith ".sched.db" = true
    · by_cases h2 : f.mtime < cutoff
      · simp [sweepLoop, h1, h2, ih, List.filter_cons]
      · simp [sweepLoop, h1, h2, ih, List.filter_cons]
    · simp [sweepLoop, h1, ih, List.filter_cons]

/-- C7: the retention sweep.  The files attempted for deletion are exactly
the `.sched.db` files whose mtime is strictly older than
`now − backupDays·86400`, and only when cleanup was requested AND the
integrity check returned `'ok'` (otherwise no sweep at all); every attempted
name ends in `.sched.db`, so manual backups are never touched; the deleted
files are the attempted ones whose `os.remove` succeeded — a failed deletion
is skipped without aborting the sweep, and which files are attempted does
not depend on earlier deletion failures. -/
theorem make_backup_sweep_spec (integrityRow : String) (cleanup scheduler : Bool)
    (ts : String) (files : List BackupFile) (now : Int) (backupDays : Nat)
    (delOk : String → Bool) (listing : List String) :
    (make_backup integrityRow cleanup scheduler ts files now backupDays delOk
        listing).sweepAttempted =
      (if cleanup = true ∧ integrityRow = "ok" then
        (files.filter fun f =>
          f.name.endsWith ".sched.db" &&
            decide (f.mtime < now - (backupDays : Int) * 86400)).map BackupFile.name
      else []) ∧
    ((make_backup integrityRow cleanup scheduler ts files now backupDays delOk
        listing).sweepAttempted.all fun n => n.endsWith ".sched.db") = true ∧
    (make_backup integrityRow cleanup scheduler ts files now backupDays delOk
        listing).sweepDeleted =
      (make_backup integrityRow cleanup scheduler ts files now backupDays delOk
        listing).sweepAttempted.filter delOk ∧
    (make_backup integrityRow cleanup scheduler ts files now backupDays delOk
        listing).sweepAttempted =
      (make_backup integrityRow cleanup scheduler ts files now backupDays
        (fun _ => false) listing).sweepAttempted := by
  have hchar : ∀ g : String → Bool,
      (make_backup integrityRow cleanup scheduler ts files now backupDays g
        listing).sweepAttempted =
      (if cleanup = true ∧ integrityRow = "ok" then
        (files.filter fun f =>
          f.name.endsWith ".sched.db" &&
            decide (f.mtime < now - (backupDays : Int) * 86400)).map BackupFile.name
      else []) := by
    intro g
    by_cases hc : cleanup = true
    · by_cases hi : integrityRow = "ok"
      · simp [make_backup, hc, hi, sweepLoop_eq]
      · simp [make_backup, hc, hi]
    · simp [make_backup, hc]
  refine ⟨hchar delOk, ?_, ?_, ?_⟩
  · rw [hchar delOk]
    by_cases h : cleanup = true ∧ integrityRow = "ok"
    · rw [if_pos h]
      rw [List.all_eq_true]
      intro n hn
      obtain ⟨f, hf, rfl⟩ := List.mem_map.mp hn
      exact ((Bool.and_eq_true _ _).mp (List.mem_filter.mp hf).2).1
    · rw [if_neg h]
      rfl
  · by_cases hc : cleanup = true
    · by_cases hi : integrityRow = "ok"
      · simp [make_backup, hc, hi, sweepLoop_eq]
      · simp [make_backup, hc, hi]
    · simp [make_backup, hc]
  · rw [hchar delOk, hchar (fun _ => false)]

theorem backupFileName_corrupt_ne (ts : String) (s : Bool) :
    backupFileName ts "" s ≠ backupFileName ts ".corrupt" s := by
  intro h
  have hl := congrArg String.length h
  have h1 : ("" : String).length = 0 := by decide
  have h2 : (".corrupt" : String).length = 8 := by decide
  cases s <;>
    simp only [backupFileName, Bool.false_eq_true, if_false, if_true,
      String.length_append, h1, h2] at hl <;>
    omega

/-- C8: the backup file's name carries the `.corrupt` infix — i.e. it is the
name assembled with the `'.corrupt'` tag rather than the empty tag — exactly
when the integrity check's row is not the literal `'ok'`; in that case
exactly one corruption notification is enqueued (`NOTIFY_QUEUE.put`, inside
`if not integrity:`), otherwise none; and `make_backup` returns `True`
exactly when the newly composed file name appears in the backup directory
listing taken after the copy. -/
theorem make_backup_name_spec (integrityRow : String) (cleanup scheduler : Bool)
    (ts : String) (files : List BackupFile) (now : Int) (backupDays : Nat)
    (delOk : String → Bool) (listing : List String) :
    (make_backup integrityRow cleanup scheduler ts files now backupDays delOk
        listing).backup_file =
      backupFileName ts (if integrityRow == "ok" then "" else ".corrupt") scheduler ∧
    ((make_backup integrityRow cleanup scheduler ts files now backupDays delOk
        listing).backup_file = backupFileName ts ".corrupt" scheduler ↔
      integrityRow ≠ "ok") ∧
    (make_backup integrityRow cleanup scheduler ts files now backupDays delOk
        listing).notifications = (if integrityRow = "ok" then 0 else 1) ∧
    ((make_backup integrityRow cleanup scheduler ts files now backupDays delOk
        listing).returnValue = true ↔
      (make_backup integrityRow cleanup scheduler ts files now backupDays delOk
        listing).backup_file ∈ listing) := by
  refine ⟨rfl, ?_, ?_, ?_⟩
  · by_cases hi : integrityRow = "ok"
    · constructor
      · intro h
        exfalso
        apply backupFileName_corrupt_ne ts scheduler
        rw [← h]
        simp [make_backup, hi]
      · intro h
        exact absurd hi h
    · constructor
      · intro _
        exact hi
      · intro _
        simp [make_backup, hi]
  · by_cases hi : integrityRow = "ok" <;> simp [make_backup, hi]
  · have hmem : ∀ (l : List String) (a : String), l.contains a = true ↔ a ∈ l := by
      intro l a
      simp [List.contains_eq_any_beq]
    exact hmem listing _

/-! ## `delete_user_history` and `delete_library_history`

```python
def delete_rows_from_table(table, row_ids):
    ...
    if row_ids:
        query = "DELETE FROM " + table + " WHERE id IN (...)"
        try:
            monitor_db.action(query, row_ids)
            return True
        except Exception as e:
            return False
    return True

def delete_session_history_rows(row_ids=None):
    success = []
    for table in ('session_history', 'session_history_media_info', 'session_history_metadata'):
        success.append(delete_rows_from_table(table=table, row_ids=row_ids))
    return all(success)

def delete_user_history(user_id=None):
    if str(user_id).isdigit():
        result = monitor_db.select('SELECT id FROM session_history WHERE user_id = ?', [user_id])
        row_ids = [row['id'] for row in result]
        return delete_session_history_rows(row_ids=row_ids)
```

(`delete_library_history` is identical up to its `SELECT ... JOIN` query.)
The identifier is modelled as the string `str(user_id)`; the ids the
`SELECT` returns and whether each per-table `DELETE` succeeds are inputs.
Each modelled function returns the Python return value (`none` is the
implicit `None` of a function that falls off the end) together with the
number of database statements executed. -/

/-- Python's `str.isdigit()`: non-empty and all digit characters. -/
def pyIsDigit (s : String) : Bool :=
  !s.data.isEmpty && s.data.all Char.isDigit

/-- Model of `delete_rows_from_table`: an empty id list is a no-op returning `True`;
otherwise one `DELETE` statement runs and its success is returned. -/
def delete_rows_from_table (row_ids : List Nat) (ok : Bool) : Bool × Nat :=
  if row_ids.isEmpty then (true, 0) else (ok, 1)

/-- Model of `delete_session_history_rows`: one `delete_rows_from_table` per history
table, returning `all(success)` and the statements executed.  `ok i` is
whether the `DELETE` on the i-th table succeeds. -/
def delete_session_history_rows (row_ids : List Nat) (ok : Nat → Bool) : Bool × Nat :=
  ((delete_rows_from_table row_ids (ok 0)).1 &&
      (delete_rows_from_table row_ids (ok 1)).1 &&
      (delete_rows_from_table row_ids (ok 2)).1,
    (delete_rows_from_table row_ids (ok 0)).2 +
      (delete_rows_from_table row_ids (ok 1)).2 +
      (delete_rows_from_table row_ids (ok 2)).2)

/-- Model of `delete_user_history`: the guard `str(user_id).isdigit()` gates
everything; when it fails the function body ends with no statement run and
Python returns `None`. `histIds` are the ids the `SELECT` (the one counted
statement besides the deletes) returns for this user. -/
def delete_user_history (user_id : String) (histIds : List Nat)
    (ok : Nat → Bool) : Option Bool × Nat :=
  if pyIsDigit user_id then
    (some (delete_session_history_rows histIds ok).1,
      1 + (delete_session_history_rows histIds ok).2)
  else (none, 0)

/-- Model of `delete_library_history`: same structure as `delete_user_history`, with
the `SELECT ... JOIN session_history_metadata` query instead. -/
def delete_library_history (section_id : String) (histIds : List Nat)
    (ok : Nat → Bool) : Option Bool × Nat :=
  if pyIsDigit section_id then
    (some (delete_session_history_rows histIds ok).1,
      1 + (delete_session_history_rows histIds ok).2)
  else (none, 0)

/-- C10: for a non-numeric identifier both deletion routines run no database
statement at all and return Python's `None` instead of a boolean; on the
numeric path the returned boolean is exactly the conjunction of the three
per-table deletion results. -/
theorem delete_history_guard (ident : String) (hu hl : List Nat)
    (oku okl : Nat → Bool) :
    (pyIsDigit ident = false →
      delete_user_history ident hu oku = (none, 0) ∧
      delete_library_history ident hl okl = (none, 0)) ∧
    (pyIsDigit ident = true →
      (delete_user_history ident hu oku).1 =
        some ((delete_rows_from_table hu (oku 0)).1 &&
          (delete_rows_from_table hu (oku 1)).1 &&
          (delete_rows_from_table hu (oku 2)).1) ∧
      (delete_library_history ident hl okl).1 =
        some ((delete_rows_from_table hl (okl 0)).1 &&
          (delete_rows_from_table hl (okl 1)).1 &&
          (delete_rows_from_table hl (okl 2)).1)) := by
  constructor
  · intro h
    constructor <;>
      simp [delete_user_history, delete_library_history, h]
  · intro h
    constructor <;>
      simp [delete_user_history, delete_library_history,
        delete_session_history_rows, h]

/-- Witness for `delete_history_guard` at the non-numeric identifier `"x9"`
and the numeric identifier `"42"`. -/
theorem delete_history_guard_witness :
    (pyIsDigit "x9" = false ∧
      delete_user_history "x9" [1] (fun _ => true) = (none, 0) ∧
      delete_library_history "x9" [2] (fun _ => true) = (none, 0)) ∧
    (pyIsDigit "42" = true ∧
      (delete_user_history "42" [1] (fun _ => false)).1 =
        some ((delete_rows_from_table [1] false).1 &&
          (delete_rows_from_table [1] false).1 &&
          (delete_rows_from_table [1] false).1) ∧
      (delete_library_history "42" [2] (fun _ => false)).1 =
        some ((delete_rows_from_table [2] false).1 &&
          (delete_rows_from_table [2] false).1 &&
          (delete_rows_from_table [2] false).1)) :=
  ⟨⟨by decide,
      (delete_history_guard "x9" [1] [2] (fun _ => true) (fun _ => true)).1 (by decide)⟩,
    ⟨by decide,
      (delete_history_guard "42" [1] [2] (fun _ => false) (fun _ => false)).2 (by decide)⟩⟩

end Tautulli
